import Mathlib

/-!
# Verification of the PhantomOS face-tracking pipeline

A shallow embedding of the core of `src/kernel/face_track.py`: the
smoothing filter, the gesture classifier, the aspect-ratio computations
and the per-frame record construction of `FaceTracker`.  Scalar values
that the Python code holds in floats are modelled as exact rationals.
-/

/-- The set of gesture labels emitted by the classifier
(`detect_gesture` returns one of these strings). -/
inductive Gesture where
  | none
  | blink_both
  | blink_left
  | blink_right
  | mouth_open
deriving DecidableEq, Repr

/-- The classifier's persistent state: the run-length counters and the
cooldown, as initialised in `FaceTracker.__init__` (lines 141-145).
(The source also stores `last_gesture`, which is written once at
construction and never read or updated again, so it is omitted.) -/
structure GestureState where
  left_eye_closed_frames : ℕ
  right_eye_closed_frames : ℕ
  mouth_open_frames : ℕ
  gesture_cooldown : ℕ
deriving DecidableEq, Repr

/-- In `FaceTracker.__init__` all counters and the cooldown start at 0. -/
def initGesture : GestureState :=
  ⟨0, 0, 0, 0⟩

/-- The test `left_closed = left_ear < 0.15` (line 295); likewise for the right
eye (line 296). -/
def eyeClosed (ear : ℚ) : Bool :=
  ear < 3/20

/-- The test `mar > 0.4` (line 309). -/
def mouthOpen (mar : ℚ) : Bool :=
  2/5 < mar

/-- The state-machine core of `detect_gesture` (lines 298-335), after
the per-eye/mouth booleans have been computed: update the three
run-length counters, then either burn one cooldown frame or evaluate the
gesture conditions in source order. -/
def gestureStep (lc rc mo : Bool) (s : GestureState) : GestureState × Gesture :=
  let l := if lc then s.left_eye_closed_frames + 1 else 0
  let r := if rc then s.right_eye_closed_frames + 1 else 0
  let m := if mo then s.mouth_open_frames + 1 else 0
  if 0 < s.gesture_cooldown then
    (⟨l, r, m, s.gesture_cooldown - 1⟩, Gesture.none)
  else if 2 < l ∧ 2 < r then
    (⟨l, r, m, 15⟩, Gesture.blink_both)
  else if 3 < l ∧ r = 0 then
    (⟨l, r, m, 15⟩, Gesture.blink_left)
  else if 3 < r ∧ l = 0 then
    (⟨l, r, m, 15⟩, Gesture.blink_right)
  else if 5 < m then
    (⟨l, r, m, 20⟩, Gesture.mouth_open)
  else
    (⟨l, r, m, s.gesture_cooldown⟩, Gesture.none)

/-- The function `detect_gesture` on a face-detected frame: classify each aperture
ratio against its fixed threshold (lines 295-296, 309) and run the
state machine.  The ratios are the values `calculate_eye_aspect_ratio`
and `calculate_mouth_aspect_ratio` return for this frame's landmarks. -/
def detect_gesture (left_ear right_ear mar : ℚ) (s : GestureState) :
    GestureState × Gesture :=
  gestureStep (eyeClosed left_ear) (eyeClosed right_ear) (mouthOpen mar) s

/-- Classifier state after `n` face-detected frames whose per-frame
(left EAR, right EAR, MAR) triples are given by `f`, starting from the
freshly constructed state. -/
def runGesture (f : ℕ → ℚ × ℚ × ℚ) : ℕ → GestureState
  | 0 => initGesture
  | n + 1 => (detect_gesture (f n).1 (f n).2.1 (f n).2.2 (runGesture f n)).1

/-- The gesture emitted on face-detected frame `n` (0-indexed: `n = 0`
is the first frame). -/
def gestureOut (f : ℕ → ℚ × ℚ × ℚ) (n : ℕ) : Gesture :=
  (detect_gesture (f n).1 (f n).2.1 (f n).2.2 (runGesture f n)).2

/-- Classifier state after `n` face-detected frames on which the
per-frame eye/mouth booleans are the constants `lc`, `rc`, `mo`. -/
def runConst (lc rc mo : Bool) : ℕ → GestureState
  | 0 => initGesture
  | n + 1 => (gestureStep lc rc mo (runConst lc rc mo n)).1

/-- The gesture emitted on frame `n` of such a constant run. -/
def outConst (lc rc mo : Bool) (n : ℕ) : Gesture :=
  (gestureStep lc rc mo (runConst lc rc mo n)).2

/-- A four-frame input run for the classifier: the left eye is closed
(EAR 0) on every frame; the right eye is closed on frame 1 only and
open (EAR 1) on frames 0, 2 and 3; the mouth ratio is 0 throughout. -/
def winkRun : ℕ → ℚ × ℚ × ℚ :=
  fun n => if n = 1 then (0, 0, 0) else (0, 1, 0)

/-- Constant stream: both eyes closed, mouth closed. -/
def bothClosedStream : ℕ → ℚ × ℚ × ℚ := fun _ => (0, 0, 0)

/-- Constant stream: left eye closed, right eye open, mouth closed. -/
def leftClosedStream : ℕ → ℚ × ℚ × ℚ := fun _ => (0, 1, 0)

/-- Constant stream: right eye closed, left eye open, mouth closed. -/
def rightClosedStream : ℕ → ℚ × ℚ × ℚ := fun _ => (1, 0, 0)

/-- Constant stream: both eyes open, mouth wide open (MAR 1). -/
def mouthOpenStream : ℕ → ℚ × ℚ × ℚ := fun _ => (1, 1, 1)

/-- The guard-and-divide tail of `calculate_eye_aspect_ratio`
(lines 244-252).  `v_dist` and `h_dist` are the vertical and horizontal
landmark distances the source computes with `np.sqrt` just above the
guard; the guard and the returned ratio are exactly the source's. -/
def calculate_eye_aspect_ratio (v_dist h_dist : ℚ) : ℚ :=
  if h_dist < 1/1000 then 1 else v_dist / h_dist

/-- The guard-and-divide tail of `calculate_mouth_aspect_ratio`
(lines 264-272), with the same reading of `v_dist` and `h_dist`. -/
def calculate_mouth_aspect_ratio (v_dist h_dist : ℚ) : ℚ :=
  if h_dist < 1/1000 then 0 else v_dist / h_dist

/-- The smoothing filter's persistent point (`smooth_x`, `smooth_y`). -/
structure SmoothState where
  smooth_x : ℚ
  smooth_y : ℚ
deriving DecidableEq, Repr

/-- In `FaceTracker.__init__`, lines 148-149: the smoothed point is seeded
at (0.5, 0.5). -/
def initSmooth : SmoothState :=
  ⟨1/2, 1/2⟩

/-- What one landmark detection contributes to a frame: the raw
tracking point produced by `get_tracking_point` and the three aspect
ratios `detect_gesture` derives from the landmarks. -/
structure Obs where
  rawX : ℚ
  rawY : ℚ
  left_ear : ℚ
  right_ear : ℚ
  mar : ℚ
deriving DecidableEq, Repr

/-- The mutable per-run state of `FaceTracker` touched by a frame. -/
structure TrackerState where
  smooth : SmoothState
  gest : GestureState
deriving DecidableEq, Repr

/-- Fresh `FaceTracker` state. -/
def initTracker : TrackerState :=
  ⟨initSmooth, initGesture⟩

/-- One output line of the tracker (`result` in `process_frame`,
lines 386-392): `{"x": .., "y": .., "gesture": .., "face_detected": ..,
"fps": ..}`. -/
structure TrackingRecord where
  x : ℚ
  y : ℚ
  gesture : Gesture
  face_detected : Bool
  fps : ℚ
deriving DecidableEq, Repr

/-- The per-frame core of `process_frame` (lines 386-420).  `obs` is
`none` when the landmark source detects no face this frame; `fps` is
the rate estimator's value `frame_count / elapsed`, supplied here as an
input since it is derived from wall-clock time.  With no face the
`result` dict keeps its defaults `x = y = 0.5`, `gesture = "none"`,
`face_detected = false`, and no tracker state is touched; with a face
the smoothed point is updated (lines 411-412) and copied into the
record, and the classifier runs. -/
def process_frame (α fps : ℚ) (st : TrackerState) (obs : Option Obs) :
    TrackerState × TrackingRecord :=
  match obs with
  | Option.none => (st, ⟨1/2, 1/2, Gesture.none, false, fps⟩)
  | Option.some o =>
      let sx := st.smooth.smooth_x * α + o.rawX * (1 - α)
      let sy := st.smooth.smooth_y * α + o.rawY * (1 - α)
      let g := detect_gesture o.left_ear o.right_ear o.mar st.gest
      (⟨⟨sx, sy⟩, g.1⟩, ⟨sx, sy, g.2, true, fps⟩)

/-- Tracker state after `n` frames of the observation stream `obs`
(with per-frame fps readings `fps`), from a fresh tracker. -/
def runTracker (α : ℚ) (fps : ℕ → ℚ) (obs : ℕ → Option Obs) : ℕ → TrackerState
  | 0 => initTracker
  | n + 1 => (process_frame α (fps n) (runTracker α fps obs n) (obs n)).1

/-- The record emitted on frame `n` (0-indexed). -/
def recordAt (α : ℚ) (fps : ℕ → ℚ) (obs : ℕ → Option Obs) (n : ℕ) : TrackingRecord :=
  (process_frame α (fps n) (runTracker α fps obs n) (obs n)).2

/-- The smoothing recurrence of lines 411-412 iterated against a
constant raw point `p`, from an arbitrary starting point `s`. -/
def smoothIter (α : ℚ) (p : ℚ × ℚ) (s : SmoothState) : ℕ → SmoothState
  | 0 => s
  | n + 1 =>
      let t := smoothIter α p s n
      ⟨t.smooth_x * α + p.1 * (1 - α), t.smooth_y * α + p.2 * (1 - α)⟩

/-- A JSON scalar as it appears in one output line: the tracker's
records contain only numbers, strings and booleans (`json.dumps` of the
`result` dict, line 495). -/
inductive JsonVal where
  | num (q : ℚ)
  | str (s : String)
  | bool (b : Bool)
deriving DecidableEq, Repr

/-- The string `detect_gesture` stores in `result["gesture"]`. -/
def gestureString : Gesture → String
  | Gesture.none => "none"
  | Gesture.blink_both => "blink_both"
  | Gesture.blink_left => "blink_left"
  | Gesture.blink_right => "blink_right"
  | Gesture.mouth_open => "mouth_open"

/-- Modelled from the spec: the consumer's reverse mapping from an
emitted gesture string to the gesture label (§3 GestureLabel: "one of
{none, blink_both, blink_left, blink_right, mouth_open}"); the consumer
of the stream is the C GUI, which is not part of this repository. -/
def gestureOfString (s : String) : Option Gesture :=
  if s = "none" then some Gesture.none
  else if s = "blink_both" then some Gesture.blink_both
  else if s = "blink_left" then some Gesture.blink_left
  else if s = "blink_right" then some Gesture.blink_right
  else if s = "mouth_open" then some Gesture.mouth_open
  else none

/-- As in `json.dumps(result)` (line 495): the record is serialised as the
five key/value pairs of the `result` dict, in construction order
(lines 386-392). -/
def encodeRecord (r : TrackingRecord) : List (String × JsonVal) :=
  [("x", JsonVal.num r.x), ("y", JsonVal.num r.y),
   ("gesture", JsonVal.str (gestureString r.gesture)),
   ("face_detected", JsonVal.bool r.face_detected),
   ("fps", JsonVal.num r.fps)]

/-- Modelled from the spec: the consumer-side deserialisation of one
output line (§6 wire format `{"x": <float 0..1>, "y": <float 0..1>,
"gesture": <string>, "face_detected": <bool>, "fps": <float>}`); the
deserialising consumer is the C GUI, outside this repository.  Each
field is looked up by key and must have the specified type. -/
def decodeRecord (fields : List (String × JsonVal)) : Option TrackingRecord :=
  match List.lookup "x" fields, List.lookup "y" fields,
      List.lookup "gesture" fields, List.lookup "face_detected" fields,
      List.lookup "fps" fields with
  | some (JsonVal.num x), some (JsonVal.num y), some (JsonVal.str g),
      some (JsonVal.bool fd), some (JsonVal.num fps) =>
      match gestureOfString g with
      | some gl => some ⟨x, y, gl, fd, fps⟩
      | Option.none => Option.none
  | _, _, _, _, _ => Option.none

/-- Observation stream for a two-frame scenario: a face at raw point
(1, 0) with open eyes and closed mouth on frame 0, then no face. -/
def loseFaceObs : ℕ → Option Obs :=
  fun n => if n = 0 then some ⟨1, 0, 1, 1, 0⟩ else none

/-- Unfolding lemma: the gesture emitted on frame `n` is the second
component of one classifier step from the state after `n` frames. -/
lemma gestureOut_def (f : ℕ → ℚ × ℚ × ℚ) (n : ℕ) :
    gestureOut f n =
      (gestureStep (eyeClosed (f n).1) (eyeClosed (f n).2.1)
        (mouthOpen (f n).2.2) (runGesture f n)).2 :=
  rfl

/-- Unfolding lemma for the state recursion. -/
lemma runGesture_succ (f : ℕ → ℚ × ℚ × ℚ) (n : ℕ) :
    runGesture f (n + 1) =
      (gestureStep (eyeClosed (f n).1) (eyeClosed (f n).2.1)
        (mouthOpen (f n).2.2) (runGesture f n)).1 :=
  rfl

/-- A step taken while the cooldown is positive emits `none` and just
decrements the cooldown (lines 315-316). -/
lemma gestureStep_cooldown (lc rc mo : Bool) (s : GestureState)
    (h : 0 < s.gesture_cooldown) :
    (gestureStep lc rc mo s).2 = Gesture.none ∧
    (gestureStep lc rc mo s).1.gesture_cooldown = s.gesture_cooldown - 1 := by
  refine ⟨?_, ?_⟩ <;> (simp only [gestureStep]; rw [if_pos h])

/-- The run-length counters evolve by the pure increment-or-reset rule
of lines 298-312, independently of the cooldown and of any emission. -/
lemma gestureStep_counters (lc rc mo : Bool) (s : GestureState) :
    (gestureStep lc rc mo s).1.left_eye_closed_frames =
      (if lc then s.left_eye_closed_frames + 1 else 0) ∧
    (gestureStep lc rc mo s).1.right_eye_closed_frames =
      (if rc then s.right_eye_closed_frames + 1 else 0) ∧
    (gestureStep lc rc mo s).1.mouth_open_frames =
      (if mo then s.mouth_open_frames + 1 else 0) := by
  simp only [gestureStep]
  split_ifs <;> simp_all

/-- While a cooldown of `c` is pending after frame `n`, it counts down
by exactly one per face-detected frame. -/
lemma cooldown_countdown (f : ℕ → ℚ × ℚ × ℚ) (n c : ℕ)
    (h : (runGesture f n).gesture_cooldown = c) :
    ∀ k, k ≤ c → (runGesture f (n + k)).gesture_cooldown = c - k := by
  intro k
  induction k with
  | zero => intro _; simpa using h
  | succ k ih =>
      intro hk
      have hc : (runGesture f (n + k)).gesture_cooldown = c - k := ih (by omega)
      have hpos : 0 < (runGesture f (n + k)).gesture_cooldown := by omega
      have := (gestureStep_cooldown (eyeClosed (f (n + k)).1)
        (eyeClosed (f (n + k)).2.1) (mouthOpen (f (n + k)).2.2)
        (runGesture f (n + k)) hpos).2
      have hstep : (runGesture f (n + k + 1)).gesture_cooldown =
          (runGesture f (n + k)).gesture_cooldown - 1 := by
        rw [runGesture_succ]; exact this
      rw [show n + (k + 1) = n + k + 1 by omega, hstep, hc]
      omega

/-- Every frame inside a pending cooldown window emits `none`,
regardless of the inputs on those frames. -/
lemma out_none_during_cooldown (f : ℕ → ℚ × ℚ × ℚ) (n c : ℕ)
    (h : (runGesture f n).gesture_cooldown = c) :
    ∀ k, k < c → gestureOut f (n + k) = Gesture.none := by
  intro k hk
  have hc : (runGesture f (n + k)).gesture_cooldown = c - k :=
    cooldown_countdown f n c h k (by omega)
  have hpos : 0 < (runGesture f (n + k)).gesture_cooldown := by omega
  rw [gestureOut_def]
  exact (gestureStep_cooldown _ _ _ _ hpos).1

/-- A constant aspect-ratio stream drives the classifier exactly like
the corresponding constant boolean inputs. -/
lemma runGesture_const (le re mar : ℚ) :
    ∀ n, runGesture (fun _ => (le, re, mar)) n =
      runConst (eyeClosed le) (eyeClosed re) (mouthOpen mar) n := by
  intro n
  induction n with
  | zero => rfl
  | succ n ih => simp [runGesture, runConst, detect_gesture, ih]

/-- Output version of `runGesture_const`. -/
lemma gestureOut_const (le re mar : ℚ) (n : ℕ) :
    gestureOut (fun _ => (le, re, mar)) n =
      outConst (eyeClosed le) (eyeClosed re) (mouthOpen mar) n := by
  simp [gestureOut, outConst, detect_gesture, runGesture_const]

/-- A step taken while the right-eye boolean is `true` can never emit
`blink_left`: the right counter has just been incremented, so the
`right_eye_closed_frames == 0` conjunct of the wink test fails. -/
lemma gestureStep_ne_blink_left (lc mo : Bool) (s : GestureState) :
    (gestureStep lc true mo s).2 ≠ Gesture.blink_left := by
  simp only [gestureStep]
  split_ifs <;> simp_all

/-- Mirror image for `blink_right`. -/
lemma gestureStep_ne_blink_right (rc mo : Bool) (s : GestureState) :
    (gestureStep true rc mo s).2 ≠ Gesture.blink_right := by
  simp only [gestureStep]
  split_ifs <;> simp_all

/-- C1: on a face-detected frame the smoothed state becomes
`smoothed * α + raw * (1 − α)` componentwise; on a no-face frame it is
exactly the previous state; and the constructor seeds it at (0.5, 0.5). -/
theorem smoothing_update_and_hold (α fps : ℚ) (st : TrackerState) (o : Obs) :
    (process_frame α fps st (Option.some o)).1.smooth =
      ⟨st.smooth.smooth_x * α + o.rawX * (1 - α),
       st.smooth.smooth_y * α + o.rawY * (1 - α)⟩ ∧
    (process_frame α fps st Option.none).1.smooth = st.smooth ∧
    initTracker.smooth = ⟨1/2, 1/2⟩ := by
  refine ⟨rfl, rfl, rfl⟩

/-- C6: whenever the horizontal distance is below 0.001, the EAR
computation returns exactly 1 (eye treated as open) and the MAR
computation returns exactly 0 (mouth treated as closed); both are
total functions, so the degenerate geometry never escapes as an error. -/
theorem degenerate_geometry_fallback (v h : ℚ) (hh : h < 1/1000) :
    calculate_eye_aspect_ratio v h = 1 ∧ calculate_mouth_aspect_ratio v h = 0 := by
  constructor
  · unfold calculate_eye_aspect_ratio
    rw [if_pos hh]
  · unfold calculate_mouth_aspect_ratio
    rw [if_pos hh]

/-- C6 witness: at `v_dist = 0`, `h_dist = 0` the fallbacks fire. -/
theorem degenerate_geometry_fallback_witness :
    (0 : ℚ) < 1/1000 ∧
    (calculate_eye_aspect_ratio 0 0 = 1 ∧ calculate_mouth_aspect_ratio 0 0 = 0) :=
  ⟨by norm_num, degenerate_geometry_fallback 0 0 (by norm_num)⟩

/-- C2: from the fresh classifier state, if both EARs are below 0.15 on
3 consecutive face-detected frames, `blink_both` is emitted on exactly
the 3rd frame (frames 1 and 2 emit `none`), and the following 14
face-detected frames all emit `none` whatever their inputs — in
particular even if both eyes stay closed.  Frames are 0-indexed here:
the 3rd frame is index 2 and the next 14 are indices 3 through 16. -/
theorem blink_both_on_third_frame (f : ℕ → ℚ × ℚ × ℚ)
    (h : ∀ j, j < 3 → (f j).1 < 3/20 ∧ (f j).2.1 < 3/20) :
    gestureOut f 0 = Gesture.none ∧ gestureOut f 1 = Gesture.none ∧
    gestureOut f 2 = Gesture.blink_both ∧
    ∀ k, 3 ≤ k → k ≤ 16 → gestureOut f k = Gesture.none := by
  have e0l : eyeClosed (f 0).1 = true := by
    simpa [eyeClosed] using (h 0 (by norm_num)).1
  have e0r : eyeClosed (f 0).2.1 = true := by
    simpa [eyeClosed] using (h 0 (by norm_num)).2
  have e1l : eyeClosed (f 1).1 = true := by
    simpa [eyeClosed] using (h 1 (by norm_num)).1
  have e1r : eyeClosed (f 1).2.1 = true := by
    simpa [eyeClosed] using (h 1 (by norm_num)).2
  have e2l : eyeClosed (f 2).1 = true := by
    simpa [eyeClosed] using (h 2 (by norm_num)).1
  have e2r : eyeClosed (f 2).2.1 = true := by
    simpa [eyeClosed] using (h 2 (by norm_num)).2
  have hcd : (runGesture f 3).gesture_cooldown = 15 := by
    rcases hm0 : mouthOpen (f 0).2.2 <;> rcases hm1 : mouthOpen (f 1).2.2 <;>
      rcases hm2 : mouthOpen (f 2).2.2 <;>
      simp [runGesture, detect_gesture, e0l, e0r, e1l, e1r, e2l, e2r,
        hm0, hm1, hm2, gestureStep, initGesture]
  refine ⟨?_, ?_, ?_, ?_⟩
  · rcases hm0 : mouthOpen (f 0).2.2 <;>
      simp [gestureOut, runGesture, detect_gesture, e0l, e0r, hm0,
        gestureStep, initGesture]
  · rcases hm0 : mouthOpen (f 0).2.2 <;> rcases hm1 : mouthOpen (f 1).2.2 <;>
      simp [gestureOut, runGesture, detect_gesture, e0l, e0r, e1l, e1r,
        hm0, hm1, gestureStep, initGesture]
  · rcases hm0 : mouthOpen (f 0).2.2 <;> rcases hm1 : mouthOpen (f 1).2.2 <;>
      rcases hm2 : mouthOpen (f 2).2.2 <;>
      simp [gestureOut, runGesture, detect_gesture, e0l, e0r, e1l, e1r,
        e2l, e2r, hm0, hm1, hm2, gestureStep, initGesture]
  · intro k h3 h16
    obtain ⟨j, rfl⟩ : ∃ j, k = 3 + j := ⟨k - 3, by omega⟩
    exact out_none_during_cooldown f 3 15 hcd j (by omega)

/-- C2 witness: the constant both-eyes-closed stream satisfies the
hypothesis and exhibits the emission pattern. -/
theorem blink_both_on_third_frame_witness :
    (∀ j, j < 3 →
      (bothClosedStream j).1 < 3/20 ∧ (bothClosedStream j).2.1 < 3/20) ∧
    (gestureOut bothClosedStream 0 = Gesture.none ∧
     gestureOut bothClosedStream 1 = Gesture.none ∧
     gestureOut bothClosedStream 2 = Gesture.blink_both ∧
     ∀ k, 3 ≤ k → k ≤ 16 → gestureOut bothClosedStream k = Gesture.none) :=
  ⟨fun j _ => ⟨by norm_num [bothClosedStream], by norm_num [bothClosedStream]⟩,
   blink_both_on_third_frame bothClosedStream
     (fun j _ => ⟨by norm_num [bothClosedStream], by norm_num [bothClosedStream]⟩)⟩

/-- C4 counterexample: on `winkRun` the left eye is closed on all four
frames and the right eye records a closed frame during the run (frame
index 1), yet the classifier still emits `blink_left` on the 4th frame
(index 3) — the claim's "strict over the whole run" condition is false:
the `right_eye_closed_frames == 0` test only sees the right eye's
current consecutive-closed run, which an intervening open frame resets. -/
theorem blink_left_whole_run_counterexample :
    (∀ j, j < 4 → (winkRun j).1 < 3/20) ∧
    (winkRun 1).2.1 < 3/20 ∧
    gestureOut winkRun 3 = Gesture.blink_left := by
  refine ⟨?_, by norm_num [winkRun], ?_⟩
  · intro j hj
    interval_cases j <;> norm_num [winkRun]
  · have e0l : eyeClosed (winkRun 0).1 = true := by norm_num [winkRun, eyeClosed]
    have e0r : eyeClosed (winkRun 0).2.1 = false := by norm_num [winkRun, eyeClosed]
    have e1l : eyeClosed (winkRun 1).1 = true := by norm_num [winkRun, eyeClosed]
    have e1r : eyeClosed (winkRun 1).2.1 = true := by norm_num [winkRun, eyeClosed]
    have e2l : eyeClosed (winkRun 2).1 = true := by norm_num [winkRun, eyeClosed]
    have e2r : eyeClosed (winkRun 2).2.1 = false := by norm_num [winkRun, eyeClosed]
    have e3l : eyeClosed (winkRun 3).1 = true := by norm_num [winkRun, eyeClosed]
    have e3r : eyeClosed (winkRun 3).2.1 = false := by norm_num [winkRun, eyeClosed]
    have m0 : mouthOpen (winkRun 0).2.2 = false := by norm_num [winkRun, mouthOpen]
    have m1 : mouthOpen (winkRun 1).2.2 = false := by norm_num [winkRun, mouthOpen]
    have m2 : mouthOpen (winkRun 2).2.2 = false := by norm_num [winkRun, mouthOpen]
    have m3 : mouthOpen (winkRun 3).2.2 = false := by norm_num [winkRun, mouthOpen]
    simp [gestureOut, runGesture, detect_gesture, gestureStep, initGesture,
      e0l, e0r, e1l, e1r, e2l, e2r, e3l, e3r, m0, m1, m2, m3]

/-- C4 (amended): from the fresh classifier state, if the left eye is
closed (EAR < 0.15) on 4 consecutive face-detected frames (indices
0-3), then: when the right eye is open on every one of those frames,
`blink_left` is emitted on the 4th frame (index 3) and `none` before
it; and when the right eye is closed on the 4th frame itself — so its
consecutive-closed counter is nonzero at the moment of the test —
`blink_left` is not emitted.  (A right-eye closed frame earlier in the
run, ended by an open frame before the 4th, does not block the wink:
see `blink_left_whole_run_counterexample`.) -/
theorem blink_left_on_fourth_frame (f : ℕ → ℚ × ℚ × ℚ)
    (hL : ∀ j, j < 4 → (f j).1 < 3/20) :
    ((∀ j, j < 4 → ¬((f j).2.1 < 3/20)) →
      gestureOut f 0 = Gesture.none ∧ gestureOut f 1 = Gesture.none ∧
      gestureOut f 2 = Gesture.none ∧ gestureOut f 3 = Gesture.blink_left) ∧
    ((f 3).2.1 < 3/20 → gestureOut f 3 ≠ Gesture.blink_left) := by
  constructor
  · intro hR
    have e0l : eyeClosed (f 0).1 = true := by
      simpa [eyeClosed] using hL 0 (by norm_num)
    have e1l : eyeClosed (f 1).1 = true := by
      simpa [eyeClosed] using hL 1 (by norm_num)
    have e2l : eyeClosed (f 2).1 = true := by
      simpa [eyeClosed] using hL 2 (by norm_num)
    have e3l : eyeClosed (f 3).1 = true := by
      simpa [eyeClosed] using hL 3 (by norm_num)
    have e0r : eyeClosed (f 0).2.1 = false := by
      simpa [eyeClosed] using hR 0 (by norm_num)
    have e1r : eyeClosed (f 1).2.1 = false := by
      simpa [eyeClosed] using hR 1 (by norm_num)
    have e2r : eyeClosed (f 2).2.1 = false := by
      simpa [eyeClosed] using hR 2 (by norm_num)
    have e3r : eyeClosed (f 3).2.1 = false := by
      simpa [eyeClosed] using hR 3 (by norm_num)
    refine ⟨?_, ?_, ?_, ?_⟩
    · rcases hm0 : mouthOpen (f 0).2.2 <;>
        simp [gestureOut, runGesture, detect_gesture, gestureStep,
          initGesture, e0l, e0r, hm0]
    · rcases hm0 : mouthOpen (f 0).2.2 <;> rcases hm1 : mouthOpen (f 1).2.2 <;>
        simp [gestureOut, runGesture, detect_gesture, gestureStep,
          initGesture, e0l, e0r, e1l, e1r, hm0, hm1]
    · rcases hm0 : mouthOpen (f 0).2.2 <;> rcases hm1 : mouthOpen (f 1).2.2 <;>
        rcases hm2 : mouthOpen (f 2).2.2 <;>
        simp [gestureOut, runGesture, detect_gesture, gestureStep,
          initGesture, e0l, e0r, e1l, e1r, e2l, e2r, hm0, hm1, hm2]
    · rcases hm0 : mouthOpen (f 0).2.2 <;> rcases hm1 : mouthOpen (f 1).2.2 <;>
        rcases hm2 : mouthOpen (f 2).2.2 <;> rcases hm3 : mouthOpen (f 3).2.2 <;>
        simp [gestureOut, runGesture, detect_gesture, gestureStep,
          initGesture, e0l, e0r, e1l, e1r, e2l, e2r, e3l, e3r,
          hm0, hm1, hm2, hm3]
  · intro hR3
    have e3r : eyeClosed (f 3).2.1 = true := by simpa [eyeClosed] using hR3
    rw [gestureOut_def, e3r]
    exact gestureStep_ne_blink_left _ _ _

/-- C4 witness: the constant left-wink stream satisfies the left-eye
hypothesis; its right eye is open throughout, and `blink_left` fires on
frame index 3. -/
theorem blink_left_on_fourth_frame_witness :
    (∀ j, j < 4 → (leftClosedStream j).1 < 3/20) ∧
    ((∀ j, j < 4 → ¬((leftClosedStream j).2.1 < 3/20)) →
      gestureOut leftClosedStream 0 = Gesture.none ∧
      gestureOut leftClosedStream 1 = Gesture.none ∧
      gestureOut leftClosedStream 2 = Gesture.none ∧
      gestureOut leftClosedStream 3 = Gesture.blink_left) ∧
    ((leftClosedStream 3).2.1 < 3/20 →
      gestureOut leftClosedStream 3 ≠ Gesture.blink_left) :=
  ⟨fun j _ => by norm_num [leftClosedStream],
   blink_left_on_fourth_frame leftClosedStream
     (fun j _ => by norm_num [leftClosedStream])⟩

/-- C5: from the fresh classifier state, if MAR exceeds 0.4 on 6
consecutive face-detected frames (indices 0-5) on none of which either
eye is classified closed, `mouth_open` is emitted on exactly the 6th
frame (index 5), and the following 20 face-detected frames (indices
6-25) all emit `none` whatever their inputs and counters. -/
theorem mouth_open_on_sixth_frame (f : ℕ → ℚ × ℚ × ℚ)
    (h : ∀ j, j < 6 →
      2/5 < (f j).2.2 ∧ ¬((f j).1 < 3/20) ∧ ¬((f j).2.1 < 3/20)) :
    (∀ k, k < 5 → gestureOut f k = Gesture.none) ∧
    gestureOut f 5 = Gesture.mouth_open ∧
    ∀ k, 6 ≤ k → k ≤ 25 → gestureOut f k = Gesture.none := by
  have m0 : mouthOpen (f 0).2.2 = true := by
    simpa [mouthOpen] using (h 0 (by norm_num)).1
  have m1 : mouthOpen (f 1).2.2 = true := by
    simpa [mouthOpen] using (h 1 (by norm_num)).1
  have m2 : mouthOpen (f 2).2.2 = true := by
    simpa [mouthOpen] using (h 2 (by norm_num)).1
  have m3 : mouthOpen (f 3).2.2 = true := by
    simpa [mouthOpen] using (h 3 (by norm_num)).1
  have m4 : mouthOpen (f 4).2.2 = true := by
    simpa [mouthOpen] using (h 4 (by norm_num)).1
  have m5 : mouthOpen (f 5).2.2 = true := by
    simpa [mouthOpen] using (h 5 (by norm_num)).1
  have e0l : eyeClosed (f 0).1 = false := by
    simpa [eyeClosed] using (h 0 (by norm_num)).2.1
  have e1l : eyeClosed (f 1).1 = false := by
    simpa [eyeClosed] using (h 1 (by norm_num)).2.1
  have e2l : eyeClosed (f 2).1 = false := by
    simpa [eyeClosed] using (h 2 (by norm_num)).2.1
  have e3l : eyeClosed (f 3).1 = false := by
    simpa [eyeClosed] using (h 3 (by norm_num)).2.1
  have e4l : eyeClosed (f 4).1 = false := by
    simpa [eyeClosed] using (h 4 (by norm_num)).2.1
  have e5l : eyeClosed (f 5).1 = false := by
    simpa [eyeClosed] using (h 5 (by norm_num)).2.1
  have e0r : eyeClosed (f 0).2.1 = false := by
    simpa [eyeClosed] using (h 0 (by norm_num)).2.2
  have e1r : eyeClosed (f 1).2.1 = false := by
    simpa [eyeClosed] using (h 1 (by norm_num)).2.2
  have e2r : eyeClosed (f 2).2.1 = false := by
    simpa [eyeClosed] using (h 2 (by norm_num)).2.2
  have e3r : eyeClosed (f 3).2.1 = false := by
    simpa [eyeClosed] using (h 3 (by norm_num)).2.2
  have e4r : eyeClosed (f 4).2.1 = false := by
    simpa [eyeClosed] using (h 4 (by norm_num)).2.2
  have e5r : eyeClosed (f 5).2.1 = false := by
    simpa [eyeClosed] using (h 5 (by norm_num)).2.2
  have hcd : (runGesture f 6).gesture_cooldown = 20 := by
    simp [runGesture, detect_gesture, gestureStep, initGesture,
      m0, m1, m2, m3, m4, m5, e0l, e1l, e2l, e3l, e4l, e5l,
      e0r, e1r, e2r, e3r, e4r, e5r]
  refine ⟨?_, ?_, ?_⟩
  · intro k hk
    interval_cases k <;>
      simp [gestureOut, runGesture, detect_gesture, gestureStep, initGesture,
        m0, m1, m2, m3, m4, e0l, e1l, e2l, e3l, e4l, e0r, e1r, e2r, e3r, e4r]
  · simp [gestureOut, runGesture, detect_gesture, gestureStep, initGesture,
      m0, m1, m2, m3, m4, m5, e0l, e1l, e2l, e3l, e4l, e5l,
      e0r, e1r, e2r, e3r, e4r, e5r]
  · intro k h6 h25
    obtain ⟨j, rfl⟩ : ∃ j, k = 6 + j := ⟨k - 6, by omega⟩
    exact out_none_during_cooldown f 6 20 hcd j (by omega)

/-- C5 witness: the constant open-mouth stream satisfies the hypothesis
and exhibits the emission pattern. -/
theorem mouth_open_on_sixth_frame_witness :
    (∀ j, j < 6 → 2/5 < (mouthOpenStream j).2.2 ∧
      ¬((mouthOpenStream j).1 < 3/20) ∧ ¬((mouthOpenStream j).2.1 < 3/20)) ∧
    ((∀ k, k < 5 → gestureOut mouthOpenStream k = Gesture.none) ∧
     gestureOut mouthOpenStream 5 = Gesture.mouth_open ∧
     ∀ k, 6 ≤ k → k ≤ 25 → gestureOut mouthOpenStream k = Gesture.none) :=
  ⟨fun j _ => by norm_num [mouthOpenStream],
   mouth_open_on_sixth_frame mouthOpenStream
     (fun j _ => by norm_num [mouthOpenStream])⟩

/-- C10: emitting a gesture leaves the run-length counters alone (every
classifier step, cooldown or not, evolves each counter by the pure
increment-or-reset rule), and consequently, under constant inputs that
keep a gesture's condition true, the gesture fires again on the first
face-detected frame after the cooldown runs out: `blink_both` on
indices 2 and 18 with `none` on 3-17, `blink_left` (resp.
`blink_right`) on indices 3 and 19 with `none` on 4-18, and
`mouth_open` on indices 5 and 26 with `none` on 6-25 — once per
cooldown window for as long as the condition holds. -/
theorem counters_survive_emission_and_reemit :
    (∀ (lc rc mo : Bool) (s : GestureState),
      (gestureStep lc rc mo s).1.left_eye_closed_frames =
        (if lc then s.left_eye_closed_frames + 1 else 0) ∧
      (gestureStep lc rc mo s).1.right_eye_closed_frames =
        (if rc then s.right_eye_closed_frames + 1 else 0) ∧
      (gestureStep lc rc mo s).1.mouth_open_frames =
        (if mo then s.mouth_open_frames + 1 else 0)) ∧
    (gestureOut bothClosedStream 2 = Gesture.blink_both ∧
     (∀ k : Fin 15, gestureOut bothClosedStream (3 + k.1) = Gesture.none) ∧
     gestureOut bothClosedStream 18 = Gesture.blink_both) ∧
    (gestureOut leftClosedStream 3 = Gesture.blink_left ∧
     (∀ k : Fin 15, gestureOut leftClosedStream (4 + k.1) = Gesture.none) ∧
     gestureOut leftClosedStream 19 = Gesture.blink_left) ∧
    (gestureOut rightClosedStream 3 = Gesture.blink_right ∧
     (∀ k : Fin 15, gestureOut rightClosedStream (4 + k.1) = Gesture.none) ∧
     gestureOut rightClosedStream 19 = Gesture.blink_right) ∧
    (gestureOut mouthOpenStream 5 = Gesture.mouth_open ∧
     (∀ k : Fin 20, gestureOut mouthOpenStream (6 + k.1) = Gesture.none) ∧
     gestureOut mouthOpenStream 26 = Gesture.mouth_open) := by
  have c0 : eyeClosed 0 = true := by norm_num [eyeClosed]
  have c1 : eyeClosed 1 = false := by norm_num [eyeClosed]
  have mc0 : mouthOpen 0 = false := by norm_num [mouthOpen]
  have mc1 : mouthOpen 1 = true := by norm_num [mouthOpen]
  have hb : ∀ n, gestureOut bothClosedStream n = outConst true true false n := by
    intro n
    rw [show bothClosedStream = (fun _ => ((0 : ℚ), (0 : ℚ), (0 : ℚ))) from rfl,
      gestureOut_const, c0, mc0]
  have hl : ∀ n, gestureOut leftClosedStream n = outConst true false false n := by
    intro n
    rw [show leftClosedStream = (fun _ => ((0 : ℚ), (1 : ℚ), (0 : ℚ))) from rfl,
      gestureOut_const, c0, c1, mc0]
  have hr : ∀ n, gestureOut rightClosedStream n = outConst false true false n := by
    intro n
    rw [show rightClosedStream = (fun _ => ((1 : ℚ), (0 : ℚ), (0 : ℚ))) from rfl,
      gestureOut_const, c1, c0, mc0]
  have hm : ∀ n, gestureOut mouthOpenStream n = outConst false false true n := by
    intro n
    rw [show mouthOpenStream = (fun _ => ((1 : ℚ), (1 : ℚ), (1 : ℚ))) from rfl,
      gestureOut_const, c1, mc1]
  refine ⟨fun lc rc mo s => gestureStep_counters lc rc mo s,
    ⟨?_, ?_, ?_⟩, ⟨?_, ?_, ?_⟩, ⟨?_, ?_, ?_⟩, ⟨?_, ?_, ?_⟩⟩ <;>
    simp only [hb, hl, hr, hm] <;> decide

/-- C3 counterexample: run the tracker (α = 0.3, the default) on one
face frame at raw point (1, 0) followed by a no-face frame.  After the
face frame the smoothed point is (0.85, 0.15), and it is held there
through the no-face frame; but the record emitted on the no-face frame
carries the `result` dict's default `x = 0.5` — not the held smoothed
point.  So "its x and y fields equal the smoothing filter's current
smoothed point" is false on the code. -/
theorem noface_record_is_default_counterexample :
    loseFaceObs 1 = Option.none ∧
    (recordAt (3/10) (fun _ => 0) loseFaceObs 1).face_detected = false ∧
    (recordAt (3/10) (fun _ => 0) loseFaceObs 1).gesture = Gesture.none ∧
    (runTracker (3/10) (fun _ => 0) loseFaceObs 2).smooth =
      (runTracker (3/10) (fun _ => 0) loseFaceObs 1).smooth ∧
    (runTracker (3/10) (fun _ => 0) loseFaceObs 1).smooth.smooth_x = 17/20 ∧
    (recordAt (3/10) (fun _ => 0) loseFaceObs 1).x = 1/2 ∧
    (recordAt (3/10) (fun _ => 0) loseFaceObs 1).x ≠
      (runTracker (3/10) (fun _ => 0) loseFaceObs 1).smooth.smooth_x := by
  refine ⟨rfl, rfl, ?_, rfl, ?_, rfl, ?_⟩
  · rfl
  · norm_num [runTracker, process_frame, loseFaceObs, initTracker, initSmooth]
  · norm_num [recordAt, runTracker, process_frame, loseFaceObs,
      initTracker, initSmooth]

/-- C3 (amended): on every processed frame with no face detected the
emitted record has `face_detected = false`, gesture `none`, and the
constant default position `x = y = 0.5`, while the tracker state —
including the smoothed point — is held unchanged at its last value.
(The record echoes the held smoothed point only when that point happens
to equal (0.5, 0.5): see `noface_record_is_default_counterexample`.) -/
theorem noface_record_defaults (α fps : ℚ) (st : TrackerState) :
    process_frame α fps st Option.none =
      (st, ⟨1/2, 1/2, Gesture.none, false, fps⟩) :=
  rfl

/-- C9: serialising a TrackingRecord to its JSON line and deserialising
that line yields the same x, y, gesture, face_detected and fps values;
in this exact-rational model the round trip is lossless (hence within
any tolerance). -/
theorem record_roundtrip (r : TrackingRecord) :
    decodeRecord (encodeRecord r) = some r := by
  obtain ⟨x, y, g, fd, fps⟩ := r
  cases g <;> rfl

/-- C7: iterating the smoothing update against a constant raw point `p`
leaves, after `n` frames, exactly `α ^ n` times the initial error in
each component; for `0 ≤ α < 1` the smoothed point therefore converges
to `p`: for every `ε > 0` all but finitely many frames are within `ε`. -/
theorem smoothing_converges_geometrically (α : ℚ) (p : ℚ × ℚ) (s : SmoothState)
    (h0 : 0 ≤ α) (h1 : α < 1) :
    (∀ n, (smoothIter α p s n).smooth_x - p.1 = α ^ n * (s.smooth_x - p.1) ∧
          (smoothIter α p s n).smooth_y - p.2 = α ^ n * (s.smooth_y - p.2)) ∧
    (∀ ε : ℚ, 0 < ε → ∃ N, ∀ n, N ≤ n →
      |(smoothIter α p s n).smooth_x - p.1| < ε ∧
      |(smoothIter α p s n).smooth_y - p.2| < ε) := by
  have herr : ∀ n,
      (smoothIter α p s n).smooth_x - p.1 = α ^ n * (s.smooth_x - p.1) ∧
      (smoothIter α p s n).smooth_y - p.2 = α ^ n * (s.smooth_y - p.2) := by
    intro n
    induction n with
    | zero => simp [smoothIter]
    | succ n ih =>
        obtain ⟨hx, hy⟩ := ih
        constructor
        · have : (smoothIter α p s (n + 1)).smooth_x - p.1 =
              α * ((smoothIter α p s n).smooth_x - p.1) := by
            simp only [smoothIter]
            ring
          rw [this, hx, pow_succ]
          ring
        · have : (smoothIter α p s (n + 1)).smooth_y - p.2 =
              α * ((smoothIter α p s n).smooth_y - p.2) := by
            simp only [smoothIter]
            ring
          rw [this, hy, pow_succ]
          ring
  refine ⟨herr, ?_⟩
  intro ε hε
  have hC1 : (0 : ℚ) < |s.smooth_x - p.1| + |s.smooth_y - p.2| + 1 := by
    have := abs_nonneg (s.smooth_x - p.1)
    have := abs_nonneg (s.smooth_y - p.2)
    linarith
  obtain ⟨N, hN⟩ := exists_pow_lt_of_lt_one (div_pos hε hC1) h1
  refine ⟨N, fun n hn => ?_⟩
  have mono : α ^ n ≤ α ^ N := pow_le_pow_of_le_one h0 (le_of_lt h1) hn
  have hpow : α ^ n * (|s.smooth_x - p.1| + |s.smooth_y - p.2| + 1) < ε := by
    have hlt : α ^ n < ε / (|s.smooth_x - p.1| + |s.smooth_y - p.2| + 1) :=
      lt_of_le_of_lt mono hN
    have := mul_lt_mul_of_pos_right hlt hC1
    rwa [div_mul_cancel₀ _ (ne_of_gt hC1)] at this
  have hxn : |(smoothIter α p s n).smooth_x - p.1| =
      α ^ n * |s.smooth_x - p.1| := by
    rw [(herr n).1, abs_mul, abs_pow, abs_of_nonneg h0]
  have hyn : |(smoothIter α p s n).smooth_y - p.2| =
      α ^ n * |s.smooth_y - p.2| := by
    rw [(herr n).2, abs_mul, abs_pow, abs_of_nonneg h0]
  have hpn : (0 : ℚ) ≤ α ^ n := pow_nonneg h0 n
  constructor
  · rw [hxn]
    nlinarith [abs_nonneg (s.smooth_y - p.2)]
  · rw [hyn]
    nlinarith [abs_nonneg (s.smooth_x - p.1)]

/-- C7 witness: α = 1/2, constant raw point (1, 0), start (0, 0). -/
theorem smoothing_converges_geometrically_witness :
    ((0 : ℚ) ≤ 1/2 ∧ (1/2 : ℚ) < 1) ∧
    ((∀ n, (smoothIter (1/2) (1, 0) ⟨0, 0⟩ n).smooth_x - 1 =
            (1/2) ^ n * (0 - 1) ∧
          (smoothIter (1/2) (1, 0) ⟨0, 0⟩ n).smooth_y - 0 =
            (1/2) ^ n * (0 - 0)) ∧
     (∀ ε : ℚ, 0 < ε → ∃ N, ∀ n, N ≤ n →
       |(smoothIter (1/2) (1, 0) ⟨0, 0⟩ n).smooth_x - 1| < ε ∧
       |(smoothIter (1/2) (1, 0) ⟨0, 0⟩ n).smooth_y - 0| < ε)) :=
  ⟨⟨by norm_num, by norm_num⟩,
   smoothing_converges_geometrically (1/2) (1, 0) ⟨0, 0⟩
     (by norm_num) (by norm_num)⟩

/-- C8: with α ∈ [0, 1) and every detected raw point in [0,1]×[0,1],
the persistent smoothed point stays in [0,1]×[0,1] after every frame
(the update is a convex combination and the seed (0.5, 0.5) is in
range), and hence every emitted record's x and y lie in [0, 1]. -/
theorem smoothed_point_stays_in_unit_square (α : ℚ) (fps : ℕ → ℚ)
    (obs : ℕ → Option Obs) (h0 : 0 ≤ α) (h1 : α < 1)
    (hobs : ∀ n o, obs n = some o →
      0 ≤ o.rawX ∧ o.rawX ≤ 1 ∧ 0 ≤ o.rawY ∧ o.rawY ≤ 1) :
    ∀ n,
      (0 ≤ (runTracker α fps obs n).smooth.smooth_x ∧
       (runTracker α fps obs n).smooth.smooth_x ≤ 1 ∧
       0 ≤ (runTracker α fps obs n).smooth.smooth_y ∧
       (runTracker α fps obs n).smooth.smooth_y ≤ 1) ∧
      (0 ≤ (recordAt α fps obs n).x ∧ (recordAt α fps obs n).x ≤ 1 ∧
       0 ≤ (recordAt α fps obs n).y ∧ (recordAt α fps obs n).y ≤ 1) := by
  have ha : (0 : ℚ) ≤ 1 - α := by linarith
  have hstate : ∀ n,
      0 ≤ (runTracker α fps obs n).smooth.smooth_x ∧
      (runTracker α fps obs n).smooth.smooth_x ≤ 1 ∧
      0 ≤ (runTracker α fps obs n).smooth.smooth_y ∧
      (runTracker α fps obs n).smooth.smooth_y ≤ 1 := by
    intro n
    induction n with
    | zero => norm_num [runTracker, initTracker, initSmooth]
    | succ n ih =>
        obtain ⟨hx0, hx1, hy0, hy1⟩ := ih
        cases hob : obs n with
        | none =>
            simpa [runTracker, process_frame, hob] using ⟨hx0, hx1, hy0, hy1⟩
        | some o =>
            obtain ⟨ox0, ox1, oy0, oy1⟩ := hobs n o hob
            simp only [runTracker, process_frame, hob]
            refine ⟨?_, ?_, ?_, ?_⟩ <;>
              nlinarith [mul_nonneg hx0 h0, mul_nonneg hy0 h0,
                mul_nonneg ox0 ha, mul_nonneg oy0 ha,
                mul_nonneg (sub_nonneg.2 hx1) h0,
                mul_nonneg (sub_nonneg.2 hy1) h0,
                mul_nonneg (sub_nonneg.2 ox1) ha,
                mul_nonneg (sub_nonneg.2 oy1) ha]
  intro n
  refine ⟨hstate n, ?_⟩
  obtain ⟨hx0, hx1, hy0, hy1⟩ := hstate n
  cases hob : obs n with
  | none => norm_num [recordAt, process_frame, hob]
  | some o =>
      obtain ⟨ox0, ox1, oy0, oy1⟩ := hobs n o hob
      simp only [recordAt, process_frame, hob]
      refine ⟨?_, ?_, ?_, ?_⟩ <;>
        nlinarith [mul_nonneg hx0 h0, mul_nonneg hy0 h0,
          mul_nonneg ox0 ha, mul_nonneg oy0 ha,
          mul_nonneg (sub_nonneg.2 hx1) h0,
          mul_nonneg (sub_nonneg.2 hy1) h0,
          mul_nonneg (sub_nonneg.2 ox1) ha,
          mul_nonneg (sub_nonneg.2 oy1) ha]

/-- C8 witness: α = 1/2 on the two-frame stream `loseFaceObs`, whose
only raw point (1, 0) is in range. -/
theorem smoothed_point_stays_in_unit_square_witness :
    ((0 : ℚ) ≤ 1/2 ∧ (1/2 : ℚ) < 1 ∧
     (∀ n o, loseFaceObs n = some o →
       0 ≤ o.rawX ∧ o.rawX ≤ 1 ∧ 0 ≤ o.rawY ∧ o.rawY ≤ 1)) ∧
    (∀ n,
      (0 ≤ (runTracker (1/2) (fun _ => 0) loseFaceObs n).smooth.smooth_x ∧
       (runTracker (1/2) (fun _ => 0) loseFaceObs n).smooth.smooth_x ≤ 1 ∧
       0 ≤ (runTracker (1/2) (fun _ => 0) loseFaceObs n).smooth.smooth_y ∧
       (runTracker (1/2) (fun _ => 0) loseFaceObs n).smooth.smooth_y ≤ 1) ∧
      (0 ≤ (recordAt (1/2) (fun _ => 0) loseFaceObs n).x ∧
       (recordAt (1/2) (fun _ => 0) loseFaceObs n).x ≤ 1 ∧
       0 ≤ (recordAt (1/2) (fun _ => 0) loseFaceObs n).y ∧
       (recordAt (1/2) (fun _ => 0) loseFaceObs n).y ≤ 1)) := by
  have hobs : ∀ n o, loseFaceObs n = some o →
      0 ≤ o.rawX ∧ o.rawX ≤ 1 ∧ 0 ≤ o.rawY ∧ o.rawY ≤ 1 := by
    intro n o h
    unfold loseFaceObs at h
    by_cases hn : n = 0
    · rw [if_pos hn] at h
      cases h
      norm_num
    · rw [if_neg hn] at h
      cases h
  exact ⟨⟨by norm_num, by norm_num, hobs⟩,
    smoothed_point_stays_in_unit_square (1/2) (fun _ => 0) loseFaceObs
      (by norm_num) (by norm_num) hobs⟩
